import Mathlib

/-!
Verification of `pyannote/audio/pipeline/speech_activity_detection.py`.

The module is embedded shallowly:
* numpy values are rationals; `none : Option ℚ` stands for NaN (missing);
* `np.exp` is an abstract elementwise map `exp : ℚ → ℚ` (its numeric value
  is irrelevant to the properties under study, only *whether* it is applied);
* the external collaborators (`Precomputed.__call__`, `Pretrained.__call__`)
  are parameters of type `FileRecord → Option SlidingWindowFeature`;
* `Binarize` (from `pyannote.audio.utils.signal`, not among the given
  sources) and `Timeline.support` (from `pyannote.core`) are modelled from
  the description of their behaviour in the specification.
-/

namespace SADPipeline

/-- A numpy scalar: `some q` is a finite value, `none` models NaN. -/
abbrev Val := Option ℚ

/-- A sliding window: window `i` covers `[start + i*step, start + i*step + duration)`.
Models `pyannote.core.SlidingWindow`. -/
structure SlidingWindow where
  start : ℚ
  duration : ℚ
  step : ℚ
deriving DecidableEq

/-- Start time of window `i`. -/
def winStart (w : SlidingWindow) (i : Nat) : ℚ :=
  w.start + (i : ℚ) * w.step

/-- End time of a curve of `n` windows (end of the last window). -/
def extentEnd (w : SlidingWindow) (n : Nat) : ℚ :=
  if n = 0 then w.start else winStart w (n - 1) + w.duration

/-- Models `pyannote.core.SlidingWindowFeature`: a 2-D score array
(`data`, one row per window, `dim` columns — `data.shape[1]`) together with
its sliding window. -/
structure SlidingWindowFeature where
  data : List (List Val)
  dim : Nat
  window : SlidingWindow
deriving DecidableEq

/-- A file record as provided by `pyannote.database`: the "uri" key, the
optional "sad_scores" key, and the reference segments stored under the
file record key named "annotation" (used only by the oracle pipeline). -/
structure FileRecord where
  uri : String
  sad_scores : Option SlidingWindowFeature
  reference : List (ℚ × ℚ)
deriving DecidableEq

/-- Output of `to_annotation`: labeled speech regions (models
`pyannote.core.Annotation` restricted to what the pipeline produces —
a list of `[start, end)` speech intervals plus the uri set on it). -/
structure Annot where
  uri : Option String
  regions : List (ℚ × ℚ)
deriving DecidableEq

/-- Models the final packaging: speech.uri is set to the file uri and the
regions are returned as the labeled hypothesis. -/
def toAnnot (uri : String) (regions : List (ℚ × ℚ)) : Annot :=
  { uri := some uri, regions := regions }

/-- Modelled from the spec: the hyper-parameters handed to
`pyannote.audio.utils.signal.Binarize` by `initialize` (that class is not
among the given sources). -/
structure Binarize where
  onset : ℚ
  offset : ℚ
  min_duration_on : ℚ
  min_duration_off : ℚ
  pad_onset : ℚ
  pad_offset : ℚ
deriving DecidableEq

/-- Modelled from the spec: in the non-speech state, the binarizer enters
speech at the first window whose value rises to or above `onset`.
A NaN value never crosses (numpy comparisons with NaN are false). -/
def crossesOnset (onset : ℚ) : Val → Bool
  | some x => onset ≤ x
  | none => false

/-- Modelled from the spec: in the speech state, the binarizer leaves
speech at the first window whose value drops to or below `offset`.
A NaN value never crosses. -/
def crossesOffset (offset : ℚ) : Val → Bool
  | some x => x ≤ offset
  | none => false

/-- Modelled from the spec: the hysteresis state machine (§4.3 steps 1-4).
`i` is the index of the next window, `active` the provisional start of the
current on-region (if in the speech state), `endTime` the end of the curve
used to close a region still open when the curve ends. -/
def rawRegions (onset offset : ℚ) (w : SlidingWindow) (endTime : ℚ) :
    Nat → Option ℚ → List Val → List (ℚ × ℚ)
  | _, none, [] => []
  | _, some s, [] => [(s, endTime)]
  | i, none, v :: vs =>
      if crossesOnset onset v then
        rawRegions onset offset w endTime (i + 1) (some (winStart w i)) vs
      else
        rawRegions onset offset w endTime (i + 1) none vs
  | i, some s, v :: vs =>
      if crossesOffset offset v then
        (s, winStart w i) :: rawRegions onset offset w endTime (i + 1) none vs
      else
        rawRegions onset offset w endTime (i + 1) (some s) vs

/-- Modelled from the spec (§4.3 step 5): pad a region by `pad_onset` /
`pad_offset` and clip it to `[0, total]`. -/
def padClip (b : Binarize) (total : ℚ) (r : ℚ × ℚ) : ℚ × ℚ :=
  (max 0 (r.1 - b.pad_onset), min total (r.2 + b.pad_offset))

/-- Modelled from the spec (§4.3 step 6): merge two consecutive on-regions
when the gap between them is strictly shorter than `min_duration_off`. -/
def mergeGaps (min_duration_off : ℚ) : List (ℚ × ℚ) → List (ℚ × ℚ)
  | [] => []
  | [r] => [r]
  | r1 :: r2 :: rs =>
      if r2.1 - r1.2 < min_duration_off then
        mergeGaps min_duration_off ((r1.1, r2.2) :: rs)
      else
        r1 :: mergeGaps min_duration_off (r2 :: rs)
  termination_by l => l.length

/-- Modelled from the spec (§4.3): full binarization of a speech-probability
curve — hysteresis scan, padding with clipping (zero-length regions removed),
gap merging, then removal of regions shorter than `min_duration_on`. -/
def Binarize.apply (b : Binarize) (w : SlidingWindow) (values : List Val) :
    List (ℚ × ℚ) :=
  let total := extentEnd w values.length
  let raw := rawRegions b.onset b.offset w total 0 none values
  let padded := (raw.map (padClip b total)).filter (fun r => decide (r.1 < r.2))
  let merged := mergeGaps b.min_duration_off padded
  merged.filter (fun r => decide (b.min_duration_on ≤ r.2 - r.1))

/-- Instance state of a `SpeechActivityDetection` pipeline at evaluation
time: the configuration stored by `__init__`, the `Binarize` object built by
the pipeline from its hyper-parameters, and the lazily set `log_scale_`
attribute (`none` models the attribute not existing yet, i.e.
`hasattr(self, "log_scale_")` being false). -/
structure SpeechActivityDetection where
  precomputed : Option String
  pretrained : Option String
  _binarize : Binarize
  log_scale_ : Option Bool
deriving DecidableEq

/-- Score resolution in `__call__`: the pre-loaded "sad_scores" entry of
the file if present; otherwise `self._pretrained(current_file)` when no
precomputed path is configured, else `self._precomputed(current_file)`.
The two collaborators are passed in as functions. -/
def resolveScores (fetchPrecomputed fetchPretrained : FileRecord → Option SlidingWindowFeature)
    (self : SpeechActivityDetection) (current_file : FileRecord) :
    Option SlidingWindowFeature :=
  match current_file.sad_scores with
  | some s => some s
  | none =>
      if self.precomputed = none then fetchPretrained current_file
      else fetchPrecomputed current_file

/-- The finite (non-NaN) entries of the 2-D score array, in row-major
order, as collected by `np.nanmean(sad_scores.data)`. -/
def finiteVals (data : List (List Val)) : List ℚ :=
  (data.foldr (fun row acc => row ++ acc) []).filterMap id

/-- Models np.nanmean(sad_scores.data): the mean of the finite entries; `none`
models the NaN returned when there is no finite entry. -/
def nanmean (data : List (List Val)) : Option ℚ :=
  let v := finiteVals data
  if v.length = 0 then none else some (v.sum / (v.length : ℚ))

/-- The heuristic `np.nanmean(sad_scores.data) < 0` of `__call__`. When
`nanmean` is NaN (`none`), the Python comparison `nan < 0` is false, so the
heuristic yields `false`. -/
def logScaleHeuristic (data : List (List Val)) : Bool :=
  match nanmean data with
  | some m => decide (m < 0)
  | none => false

/-- Models np.exp(sad_scores.data), with np.exp abstracted to `exp`
(np.exp of NaN is NaN, hence `Option.map`). -/
def expData (exp : ℚ → ℚ) (data : List (List Val)) : List (List Val) :=
  data.map (List.map (Option.map exp))

/-- Models the line data = np.exp(sad_scores.data) if self.log_scale_
else sad_scores.data. -/
def normalizeData (exp : ℚ → ℚ) (log_scale_ : Bool) (data : List (List Val)) :
    List (List Val) :=
  if log_scale_ then expData exp data else data

/-- Component 0 of a row, as read by data[:, 0]. -/
def comp0 (row : List Val) : Val :=
  row.headD none

/-- The speech-probability curve handed to the binarizer: when
`data.shape[1] > 1` it is `1. - data[:, 0]` (component 0 read as non-speech
probability); otherwise the single-component values are used directly. -/
def collapse (dim : Nat) (data : List (List Val)) : List Val :=
  if 1 < dim then data.map (fun row => (comp0 row).map (fun x => 1 - x))
  else data.map comp0

/-- Models SpeechActivityDetection.__call__, returning the annotated speech
regions together with the pipeline state after the call (the state
carries the possibly newly set `log_scale_`). A raised `ValueError` is the
`Except.error` case, carrying the message. -/
def sadCall (exp : ℚ → ℚ)
    (fetchPrecomputed fetchPretrained : FileRecord → Option SlidingWindowFeature)
    (self : SpeechActivityDetection) (current_file : FileRecord) :
    Except String (Annot × SpeechActivityDetection) :=
  match resolveScores fetchPrecomputed fetchPretrained self current_file with
  | none =>
      .error ("Could not get raw SAD scores for file " ++ current_file.uri ++ ".")
  | some sad_scores =>
      let log_scale_ :=
        match self.log_scale_ with
        | some b => b
        | none => logScaleHeuristic sad_scores.data
      let self' := { self with log_scale_ := some log_scale_ }
      let data := normalizeData exp log_scale_ sad_scores.data
      let speech_prob := collapse sad_scores.dim data
      let speech := Binarize.apply self._binarize sad_scores.window speech_prob
      .ok (toAnnot current_file.uri speech, self')

/-- A Python error raised during `__init__`. -/
inductive PyErr where
  | nameError (missing : String)
deriving DecidableEq

/-- Result of a successful `SpeechActivityDetection.__init__`: the warnings
emitted and the stored configuration. -/
structure InitOutcome where
  warnings : List String
  precomputed : Option String
  pretrained : Option String
deriving DecidableEq

/-- The names defined at module level in
`speech_activity_detection.py` (its imports and its two classes); the
pretrained-loading branches of `__init__` look up `Pretrained` and `torch`
here. -/
def moduleGlobals : List String :=
  ["Optional", "Union", "Text", "Path", "np", "warnings", "Pipeline",
   "Uniform", "Annotation", "SlidingWindowFeature", "Binarize",
   "Precomputed", "DetectionErrorRate", "OracleSpeechActivityDetection",
   "SpeechActivityDetection"]

/-- The deprecation message emitted when the `scores` argument is passed. -/
def deprecationMsg : String :=
  "\"scores\" is being deprecated in favor of \"precomputed\"."

/-- Models SpeechActivityDetection.__init__: deprecation aliasing of `scores`
onto `precomputed`, then the pretrained-loading branch, both of whose arms
reference a name (`Pretrained` resp. `torch`) that must resolve among the
globals of the module — an unresolved name raises `NameError`. `pathExists`
models `Path(self.pretrained).exists()`. -/
def sadInit (precomputed scores pretrained : Option String)
    (pathExists : String → Bool) : Except PyErr InitOutcome :=
  let warnings := if scores.isSome then [deprecationMsg] else []
  let precomputed := match scores with
    | some s => some s
    | none => precomputed
  match pretrained with
  | none => .ok { warnings := warnings, precomputed := precomputed, pretrained := none }
  | some p =>
      if pathExists p then
        if moduleGlobals.contains ("Pretrained") then
          .ok { warnings := warnings, precomputed := precomputed, pretrained := some p }
        else .error (.nameError ("Pretrained"))
      else
        if moduleGlobals.contains ("torch") then
          .ok { warnings := warnings, precomputed := precomputed, pretrained := some p }
        else .error (.nameError ("torch"))

/-- Modelled from the spec: `Timeline.support` of `pyannote.core` (not among
the given sources) — the union of the segments: sort by start time, then
merge every segment that overlaps or touches the region being built.
Insertion sort by start time. -/
def insertSeg (s : ℚ × ℚ) : List (ℚ × ℚ) → List (ℚ × ℚ)
  | [] => [s]
  | t :: ts => if s.1 ≤ t.1 then s :: t :: ts else t :: insertSeg s ts

/-- Sort segments by start time (insertion sort). -/
def sortSegs : List (ℚ × ℚ) → List (ℚ × ℚ)
  | [] => []
  | s :: ss => insertSeg s (sortSegs ss)

/-- Merge a sorted list of segments into its support. -/
def supportAux : (ℚ × ℚ) → List (ℚ × ℚ) → List (ℚ × ℚ)
  | cur, [] => [cur]
  | cur, s :: rest =>
      if s.1 ≤ cur.2 then supportAux (cur.1, max cur.2 s.2) rest
      else cur :: supportAux s rest

/-- Modelled from the spec: the support (union) of a list of segments. -/
def support (segs : List (ℚ × ℚ)) : List (ℚ × ℚ) :=
  match sortSegs segs with
  | [] => []
  | s :: rest => supportAux s rest

/-- Models OracleSpeechActivityDetection.__call__: the support of the reference
timeline attached to the file record, returned as labeled speech regions. -/
def oracleCall (current_file : FileRecord) : Annot :=
  { uri := none, regions := support current_file.reference }

/-! ### Helper lemmas -/

theorem update_log_scale_self (self : SpeechActivityDetection) (b : Bool)
    (h : self.log_scale_ = some b) : { self with log_scale_ := some b } = self := by
  cases self with
  | mk p pt bz ls => simp only at h; rw [h]

theorem sadCall_of_resolve_none (exp : ℚ → ℚ)
    (fpre fpret : FileRecord → Option SlidingWindowFeature)
    (self : SpeechActivityDetection) (f : FileRecord)
    (h : resolveScores fpre fpret self f = none) :
    sadCall exp fpre fpret self f =
      .error ("Could not get raw SAD scores for file " ++ f.uri ++ ".") := by
  unfold sadCall
  rw [h]

theorem sadCall_first (exp : ℚ → ℚ)
    (fpre fpret : FileRecord → Option SlidingWindowFeature)
    (self : SpeechActivityDetection) (f : FileRecord) (c : SlidingWindowFeature)
    (hflag : self.log_scale_ = none)
    (hres : resolveScores fpre fpret self f = some c) :
    sadCall exp fpre fpret self f =
      .ok (toAnnot f.uri (Binarize.apply self._binarize c.window
            (collapse c.dim (normalizeData exp (logScaleHeuristic c.data) c.data))),
           { self with log_scale_ := some (logScaleHeuristic c.data) }) := by
  unfold sadCall
  rw [hres, hflag]

theorem sadCall_cached (exp : ℚ → ℚ)
    (fpre fpret : FileRecord → Option SlidingWindowFeature)
    (self : SpeechActivityDetection) (f : FileRecord) (c : SlidingWindowFeature)
    (b : Bool)
    (hflag : self.log_scale_ = some b)
    (hres : resolveScores fpre fpret self f = some c) :
    sadCall exp fpre fpret self f =
      .ok (toAnnot f.uri (Binarize.apply self._binarize c.window
            (collapse c.dim (normalizeData exp b c.data))), self) := by
  unfold sadCall
  rw [hres, hflag]
  simp [update_log_scale_self self b hflag]

theorem filterMap_id_all_none (row : List Val) (h : ∀ v ∈ row, v = none) :
    row.filterMap id = [] := by
  induction row with
  | nil => rfl
  | cons v vs ih =>
      have hv : v = none := h v (by simp)
      subst hv
      simpa using ih (fun u hu => h u (by simp [hu]))

theorem finiteVals_cons (row : List Val) (rows : List (List Val)) :
    finiteVals (row :: rows) = row.filterMap id ++ finiteVals rows := by
  simp [finiteVals, List.filterMap_append]

theorem finiteVals_all_none (data : List (List Val))
    (h : ∀ row ∈ data, ∀ v ∈ row, v = none) : finiteVals data = [] := by
  induction data with
  | nil => rfl
  | cons row rows ih =>
      rw [finiteVals_cons,
          filterMap_id_all_none row (fun v hv => h row (by simp) v hv),
          ih (fun r hr v hv => h r (by simp [hr]) v hv)]
      rfl

theorem nanmean_all_none (data : List (List Val))
    (h : ∀ row ∈ data, ∀ v ∈ row, v = none) : nanmean data = none := by
  simp [nanmean, finiteVals_all_none data h]

theorem sadInit_pretrained_errors (precomputed scores : Option String)
    (p : String) (pathExists : String → Bool) :
    sadInit precomputed scores (some p) pathExists =
      .error (.nameError (if pathExists p then "Pretrained" else "torch")) := by
  unfold sadInit
  cases hp : pathExists p <;> simp [hp] <;> decide

/-! ### Concrete fixtures for witnesses -/

def w0 : SlidingWindow := ⟨0, 1, 1⟩

def bz0 : Binarize := ⟨0.5, 0.5, 0, 2, 0, 0⟩

def negCurve : SlidingWindowFeature := ⟨[[some (-1)]], 1, w0⟩

def posCurve : SlidingWindowFeature := ⟨[[some 1]], 1, w0⟩

def nanCurve : SlidingWindowFeature := ⟨[[none], [none]], 1, w0⟩

def pipe0 : SpeechActivityDetection := ⟨none, none, bz0, none⟩

def pipePre : SpeechActivityDetection := ⟨some ("scores-dir"), none, bz0, none⟩

def pipeCachedF : SpeechActivityDetection := ⟨none, none, bz0, some false⟩

def fileNeg : FileRecord := ⟨"f-neg", some negCurve, []⟩

def filePos : FileRecord := ⟨"f-pos", some posCurve, []⟩

def fileNan : FileRecord := ⟨"f-nan", some nanCurve, []⟩

def fileBare : FileRecord := ⟨"f-bare", none, []⟩

def noFetch : FileRecord → Option SlidingWindowFeature := fun _ => none

def idExp : ℚ → ℚ := fun x => x

/-! ### Claim theorems -/

/-- C1: on the first evaluation call of a pipeline instance (no `log_scale_`
attribute yet), if the mean of the finite values of the resolved score curve
is negative then every value is exponentiated before collapse and
binarization (and `log_scale_` is set to true); if that mean is non-negative
the values are passed through unchanged (and `log_scale_` is set to false). -/
theorem first_call_log_scale_branches (exp : ℚ → ℚ)
    (fpre fpret : FileRecord → Option SlidingWindowFeature)
    (self : SpeechActivityDetection) (f : FileRecord) (c : SlidingWindowFeature)
    (m : ℚ)
    (hflag : self.log_scale_ = none)
    (hres : resolveScores fpre fpret self f = some c)
    (hm : nanmean c.data = some m) :
    (m < 0 →
      sadCall exp fpre fpret self f =
        .ok (toAnnot f.uri (Binarize.apply self._binarize c.window
              (collapse c.dim (expData exp c.data))),
             { self with log_scale_ := some true })) ∧
    (0 ≤ m →
      sadCall exp fpre fpret self f =
        .ok (toAnnot f.uri (Binarize.apply self._binarize c.window
              (collapse c.dim c.data)),
             { self with log_scale_ := some false })) := by
  have h := sadCall_first exp fpre fpret self f c hflag hres
  have hheur : logScaleHeuristic c.data = decide (m < 0) := by
    unfold logScaleHeuristic; rw [hm]
  constructor
  · intro hneg
    rw [h, hheur, decide_eq_true hneg]
    rfl
  · intro hpos
    rw [h, hheur, decide_eq_false (not_lt.mpr hpos)]
    rfl

/-- C2: the `log_scale_` flag is computed from the first curve only and
stored on the instance (first conjunct); once stored, every later call uses
the cached flag for normalization, whatever the later own mean of the later curve, and
leaves the pipeline state unchanged (second conjunct). -/
theorem log_scale_computed_once_and_cached (exp : ℚ → ℚ)
    (fpre fpret : FileRecord → Option SlidingWindowFeature) :
    (∀ (self : SpeechActivityDetection) (f : FileRecord) (c : SlidingWindowFeature),
      self.log_scale_ = none → resolveScores fpre fpret self f = some c →
        sadCall exp fpre fpret self f =
          .ok (toAnnot f.uri (Binarize.apply self._binarize c.window
                (collapse c.dim (normalizeData exp (logScaleHeuristic c.data) c.data))),
               { self with log_scale_ := some (logScaleHeuristic c.data) })) ∧
    (∀ (self : SpeechActivityDetection) (f : FileRecord) (c : SlidingWindowFeature)
       (b : Bool),
      self.log_scale_ = some b → resolveScores fpre fpret self f = some c →
        sadCall exp fpre fpret self f =
          .ok (toAnnot f.uri (Binarize.apply self._binarize c.window
                (collapse c.dim (normalizeData exp b c.data))), self)) :=
  ⟨fun self f c hflag hres => sadCall_first exp fpre fpret self f c hflag hres,
   fun self f c b hflag hres => sadCall_cached exp fpre fpret self f c b hflag hres⟩

/-- C3: the speech-probability curve handed to the binarizer is, windowwise,
`1 - component 0` of each sample when samples have more than one component,
and the sample value itself when samples have exactly one component. -/
theorem collapse_speech_probability (dim : Nat) (data : List (List Val)) :
    (1 < dim → ∀ i : Nat,
      (collapse dim data)[i]? =
        (data[i]?).map (fun row => (comp0 row).map (fun x => 1 - x))) ∧
    (dim = 1 → ∀ i : Nat,
      (collapse dim data)[i]? = (data[i]?).map comp0) := by
  constructor
  · intro h i
    simp [collapse, if_pos h, List.getElem?_map]
  · intro h i
    subst h
    simp [collapse, List.getElem?_map]

/-- C4: score resolution order — a curve attached to the file record under
"sad_scores" is used as-is; otherwise, with a precomputed location
configured, the precomputed store is consulted; otherwise the pretrained
model is run on the file. -/
theorem score_resolution_order
    (fpre fpret : FileRecord → Option SlidingWindowFeature) :
    (∀ (self : SpeechActivityDetection) (f : FileRecord) (c : SlidingWindowFeature),
      f.sad_scores = some c → resolveScores fpre fpret self f = some c) ∧
    (∀ (self : SpeechActivityDetection) (f : FileRecord),
      f.sad_scores = none → self.precomputed ≠ none →
        resolveScores fpre fpret self f = fpre f) ∧
    (∀ (self : SpeechActivityDetection) (f : FileRecord),
      f.sad_scores = none → self.precomputed = none →
        resolveScores fpre fpret self f = fpret f) := by
  refine ⟨?_, ?_, ?_⟩
  · intro self f c h
    unfold resolveScores
    rw [h]
  · intro self f h hpre
    unfold resolveScores
    rw [h]
    simp [hpre]
  · intro self f h hpre
    unfold resolveScores
    rw [h]
    simp [hpre]

/-- C5: when score resolution yields nothing, the call fails with a
`ValueError` whose message contains the file uri, the error is the result of the call (it propagates, with no retry), and no result is produced for the
file. -/
theorem score_unavailable_error (exp : ℚ → ℚ)
    (fpre fpret : FileRecord → Option SlidingWindowFeature)
    (self : SpeechActivityDetection) (f : FileRecord)
    (h : resolveScores fpre fpret self f = none) :
    sadCall exp fpre fpret self f =
      .error ("Could not get raw SAD scores for file " ++ f.uri ++ ".") ∧
    (∃ pre post : String,
      "Could not get raw SAD scores for file " ++ f.uri ++ "." =
        pre ++ f.uri ++ post) ∧
    (∀ res : Annot × SpeechActivityDetection,
      sadCall exp fpre fpret self f ≠ .ok res) := by
  have he := sadCall_of_resolve_none exp fpre fpret self f h
  refine ⟨he, ⟨"Could not get raw SAD scores for file ", ".", rfl⟩, ?_⟩
  intro res hok
  rw [he] at hok
  exact Except.noConfusion hok

/-- C6: for the 10-sample curve `[0.1,0.1,0.9,0.9,0.9,0.2,0.2,0.9,0.9,0.1]`
sampled every 1s with `onset=offset=0.5`, zero padding, `min_duration_on=0`
and `min_duration_off=2`: the raw on-regions of the hysteresis scan are
`[2,5)` and `[7,9)`, their 2-second gap is not merged because `2 < 2` fails,
and the full binarization yields exactly `{[2,5), [7,9)}`. -/
theorem binarize_concrete_scenario :
    rawRegions (0.5 : ℚ) 0.5 ⟨0, 1, 1⟩ 10 0 none
        [some 0.1, some 0.1, some 0.9, some 0.9, some 0.9,
         some 0.2, some 0.2, some 0.9, some 0.9, some 0.1] =
      [(2, 5), (7, 9)] ∧
    ¬ ((7 : ℚ) - 5 < 2) ∧
    Binarize.apply ⟨0.5, 0.5, 0, 2, 0, 0⟩ ⟨0, 1, 1⟩
        [some 0.1, some 0.1, some 0.9, some 0.9, some 0.9,
         some 0.2, some 0.2, some 0.9, some 0.9, some 0.1] =
      [(2, 5), (7, 9)] := by
  refine ⟨?_, by norm_num, ?_⟩ <;>
    norm_num [Binarize.apply, rawRegions, crossesOnset, crossesOffset,
      winStart, extentEnd, padClip, mergeGaps]

/-- C7: the oracle pipeline returns the support (union) of the reference
timeline attached to the file record; in particular overlapping reference
segments `[0,2)` and `[1,3)` yield the single region `[0,3)`. -/
theorem oracle_support_of_reference :
    (∀ f : FileRecord,
      oracleCall f = { uri := none, regions := support f.reference }) ∧
    oracleCall { uri := "file1", sad_scores := none, reference := [(0, 2), (1, 3)] } =
      { uri := none, regions := [(0, 3)] } := by
  refine ⟨fun f => rfl, ?_⟩
  norm_num [oracleCall, support, sortSegs, insertSeg, supportAux]

/-- C8: passing the deprecated `scores` argument emits the deprecation
warning and aliases the value onto `precomputed` (first conjunct); without
it no warning is emitted (second conjunct); and apart from the warning the
stored configuration is exactly the one obtained by passing the same value
as `precomputed` directly (third conjunct). -/
theorem scores_deprecation_alias :
    (∀ (pre : Option String) (s : String) (pe : String → Bool),
      sadInit pre (some s) none pe =
        .ok { warnings := [deprecationMsg], precomputed := some s, pretrained := none }) ∧
    (∀ (pre : Option String) (pe : String → Bool),
      sadInit pre none none pe =
        .ok { warnings := [], precomputed := pre, pretrained := none }) ∧
    (∀ (pre : Option String) (s : String) (pe : String → Bool),
      (sadInit pre (some s) none pe).map (fun r => (r.precomputed, r.pretrained)) =
        (sadInit (some s) none none pe).map (fun r => (r.precomputed, r.pretrained))) :=
  ⟨fun _ _ _ => rfl, fun _ _ => rfl, fun _ _ _ => rfl⟩

/-- C9: constructing the pipeline with any non-null `pretrained` argument
fails with a `NameError` (on `Pretrained` when the path exists, on `torch`
otherwise), since neither name is among the globals of the module; consequently
every successfully constructed pipeline stores no pretrained model. -/
theorem pretrained_raises_name_error :
    (∀ (pre s : Option String) (p : String) (pe : String → Bool),
      sadInit pre s (some p) pe =
        .error (.nameError (if pe p then "Pretrained" else "torch"))) ∧
    (∀ (pre s pt : Option String) (pe : String → Bool) (r : InitOutcome),
      sadInit pre s pt pe = .ok r → r.pretrained = none) := by
  constructor
  · exact fun pre s p pe => sadInit_pretrained_errors pre s p pe
  · intro pre s pt pe r h
    cases pt with
    | none =>
        simp only [sadInit] at h
        cases h
        rfl
    | some p =>
        rw [sadInit_pretrained_errors pre s p pe] at h
        exact Except.noConfusion h

/-- C10: on a first call whose resolved curve is entirely NaN, the
mean-of-finite-values is NaN (`none`), the heuristic comparison is false, so
`log_scale_` is cached as `false` and the curve passes to binarization
unexponentiated with no error; every later call on the resulting state keeps
using the frozen `false` flag and leaves the state unchanged. -/
theorem all_nan_curve_first_call (exp : ℚ → ℚ)
    (fpre fpret : FileRecord → Option SlidingWindowFeature)
    (self : SpeechActivityDetection) (f : FileRecord) (c : SlidingWindowFeature)
    (hall : ∀ row ∈ c.data, ∀ v ∈ row, v = none)
    (hflag : self.log_scale_ = none)
    (hres : resolveScores fpre fpret self f = some c) :
    nanmean c.data = none ∧
    logScaleHeuristic c.data = false ∧
    sadCall exp fpre fpret self f =
      .ok (toAnnot f.uri (Binarize.apply self._binarize c.window
            (collapse c.dim c.data)),
           { self with log_scale_ := some false }) ∧
    (∀ (f2 : FileRecord) (c2 : SlidingWindowFeature),
      resolveScores fpre fpret { self with log_scale_ := some false } f2 = some c2 →
        sadCall exp fpre fpret { self with log_scale_ := some false } f2 =
          .ok (toAnnot f2.uri (Binarize.apply self._binarize c2.window
                (collapse c2.dim c2.data)),
               { self with log_scale_ := some false })) := by
  have hnm := nanmean_all_none c.data hall
  have hh : logScaleHeuristic c.data = false := by
    unfold logScaleHeuristic; rw [hnm]
  refine ⟨hnm, hh, ?_, ?_⟩
  · have h := sadCall_first exp fpre fpret self f c hflag hres
    rw [h, hh]
    rfl
  · intro f2 c2 hres2
    have h := sadCall_cached exp fpre fpret
      { self with log_scale_ := some false } f2 c2 false rfl hres2
    simpa [normalizeData] using h

/-! ### Witnesses -/

/-- Witness for C1: a one-sample curve of mean `-1` is exponentiated and
sets `log_scale_ := true`; one of mean `1` passes through and sets
`log_scale_ := false`. -/
theorem first_call_log_scale_branches_witness :
    sadCall idExp noFetch noFetch pipe0 fileNeg =
      .ok (toAnnot fileNeg.uri (Binarize.apply pipe0._binarize negCurve.window
            (collapse negCurve.dim (expData idExp negCurve.data))),
           { pipe0 with log_scale_ := some true }) ∧
    sadCall idExp noFetch noFetch pipe0 filePos =
      .ok (toAnnot filePos.uri (Binarize.apply pipe0._binarize posCurve.window
            (collapse posCurve.dim posCurve.data)),
           { pipe0 with log_scale_ := some false }) := by
  constructor
  · exact (first_call_log_scale_branches idExp noFetch noFetch pipe0 fileNeg negCurve
      (-1) rfl rfl
      (by norm_num [negCurve, nanmean, finiteVals, List.filterMap_cons,
        List.filterMap_nil])).1 (by norm_num)
  · exact (first_call_log_scale_branches idExp noFetch noFetch pipe0 filePos posCurve
      1 rfl rfl
      (by norm_num [posCurve, nanmean, finiteVals, List.filterMap_cons,
        List.filterMap_nil])).2 (by norm_num)

/-- Witness for C2: a fresh pipeline stores the heuristic of its first
curve; a pipeline with a cached `false` flag reuses it on a negative-mean
curve and is left unchanged. -/
theorem log_scale_computed_once_and_cached_witness :
    sadCall idExp noFetch noFetch pipe0 fileNeg =
      .ok (toAnnot fileNeg.uri (Binarize.apply pipe0._binarize negCurve.window
            (collapse negCurve.dim
              (normalizeData idExp (logScaleHeuristic negCurve.data) negCurve.data))),
           { pipe0 with log_scale_ := some (logScaleHeuristic negCurve.data) }) ∧
    sadCall idExp noFetch noFetch pipeCachedF fileNeg =
      .ok (toAnnot fileNeg.uri (Binarize.apply pipeCachedF._binarize negCurve.window
            (collapse negCurve.dim (normalizeData idExp false negCurve.data))),
           pipeCachedF) :=
  ⟨(log_scale_computed_once_and_cached idExp noFetch noFetch).1
      pipe0 fileNeg negCurve rfl rfl,
   (log_scale_computed_once_and_cached idExp noFetch noFetch).2
      pipeCachedF fileNeg negCurve false rfl rfl⟩

/-- Witness for C3: column collapse evaluated at a two-component and a
one-component sample. -/
theorem collapse_speech_probability_witness :
    (collapse 2 [[some 0.3, some 0.7]])[0]? =
      (([[some 0.3, some 0.7]] : List (List Val))[0]?).map
        (fun row => (comp0 row).map (fun x => 1 - x)) ∧
    (collapse 1 [[some 0.4]])[0]? =
      (([[some 0.4]] : List (List Val))[0]?).map comp0 :=
  ⟨(collapse_speech_probability 2 [[some 0.3, some 0.7]]).1 (by norm_num) 0,
   (collapse_speech_probability 1 [[some 0.4]]).2 rfl 0⟩

/-- Witness for C4: the three resolution branches at concrete inputs. -/
theorem score_resolution_order_witness :
    resolveScores noFetch noFetch pipe0 fileNeg = some negCurve ∧
    resolveScores (fun _ => some posCurve) noFetch pipePre fileBare =
      (fun _ => some posCurve : FileRecord → Option SlidingWindowFeature) fileBare ∧
    resolveScores noFetch (fun _ => some negCurve) pipe0 fileBare =
      (fun _ => some negCurve : FileRecord → Option SlidingWindowFeature) fileBare := by
  refine ⟨?_, ?_, ?_⟩
  · exact (score_resolution_order noFetch noFetch).1 pipe0 fileNeg negCurve rfl
  · exact (score_resolution_order (fun _ => some posCurve) noFetch).2.1
      pipePre fileBare rfl (by simp [pipePre])
  · exact (score_resolution_order noFetch (fun _ => some negCurve)).2.2
      pipe0 fileBare rfl rfl

/-- Witness for C5: a file with no attached curve, no precomputed store and
a pretrained fetcher yielding nothing makes the call fail with the
uri-bearing message. -/
theorem score_unavailable_error_witness :
    sadCall idExp noFetch noFetch pipe0 fileBare =
      .error ("Could not get raw SAD scores for file " ++ fileBare.uri ++ ".") :=
  (score_unavailable_error idExp noFetch noFetch pipe0 fileBare rfl).1

/-- Witness for C9: a remote model name whose path does not exist fails on
the undefined `torch`; the only constructible outcomes store no pretrained
model. -/
theorem pretrained_raises_name_error_witness :
    sadInit none none (some ("mdl")) (fun _ => false) =
      .error (.nameError ("torch")) ∧
    ({ warnings := [], precomputed := none, pretrained := none } : InitOutcome).pretrained
      = none := by
  constructor
  · simpa using pretrained_raises_name_error.1 none none "mdl" (fun _ => false)
  · exact pretrained_raises_name_error.2 none none none (fun _ => false)
      { warnings := [], precomputed := none, pretrained := none } rfl

/-- Witness for C10: a two-sample all-NaN curve caches `log_scale_ = false`
without error, and a subsequent negative-mean curve is still passed through
under the frozen flag. -/
theorem all_nan_curve_first_call_witness :
    nanmean nanCurve.data = none ∧
    logScaleHeuristic nanCurve.data = false ∧
    sadCall idExp noFetch noFetch pipe0 fileNan =
      .ok (toAnnot fileNan.uri (Binarize.apply pipe0._binarize nanCurve.window
            (collapse nanCurve.dim nanCurve.data)),
           { pipe0 with log_scale_ := some false }) ∧
    sadCall idExp noFetch noFetch { pipe0 with log_scale_ := some false } fileNeg =
      .ok (toAnnot fileNeg.uri (Binarize.apply pipe0._binarize negCurve.window
            (collapse negCurve.dim negCurve.data)),
           { pipe0 with log_scale_ := some false }) := by
  have h := all_nan_curve_first_call idExp noFetch noFetch pipe0 fileNan nanCurve
    (by decide) rfl rfl
  exact ⟨h.1, h.2.1, h.2.2.1, h.2.2.2 fileNeg negCurve rfl⟩

end SADPipeline
